import Mathlib

/-!
# FaceNomad enrollment wizard (src/src/App.jsx)

A shallow embedding of the React component `App`: its four pieces of
component state, the three refs, the two effects, the event handlers and the
continuations of its two asynchronous operations (camera acquisition and the
submission to the backend).  Every handler is a function on `App`; the
environment (which streams were handed out, which requests are in flight,
which URLs were fetched) is carried in the same record.
-/

namespace FaceNomad

/-! ## JavaScript values -/

/-- A JavaScript value as produced by `res.json()` (plus `undefined`, the
result of reading a property that does not exist).  Numbers are kept as the
integer they denote; only the zero test is ever applied to them. -/
inductive JsVal where
  | undefined
  | null
  | bool (b : Bool)
  | num (n : Int)
  | str (s : String)
  | arr (items : List JsVal)
  | obj (fields : List (String × JsVal))

/-- JavaScript truthiness (`ToBoolean`): what `!x`, `x && y`, `x || y` and
`x ? a : b` test. -/
def truthy : JsVal → Bool
  | .undefined => false
  | .null => false
  | .bool b => b
  | .num n => n != 0
  | .str s => s != ""
  | .arr _ => true
  | .obj _ => true

/-- Truthiness of a state variable that is `null` or a string. -/
def truthyStr : Option String → Bool
  | none => false
  | some s => s != ""

/-- The last binding of `k` in a parsed object literal (JSON.parse lets a later
duplicate key overwrite an earlier one). -/
def lookupLast (k : String) : List (String × JsVal) → Option JsVal
  | [] => none
  | (k1, v) :: rest =>
    match lookupLast k rest with
    | some w => some w
    | none => if k1 = k then some v else none

/-- The property read `v.k` for the two names the component reads (`ok` and
`message`, which no built-in prototype defines): a TypeError on `null` and
`undefined`, the own property of an object, `undefined` otherwise. -/
def getProp (v : JsVal) (k : String) : Except Unit JsVal :=
  match v with
  | .undefined => .error ()
  | .null => .error ()
  | .obj fields => .ok ((lookupLast k fields).getD .undefined)
  | _ => .ok .undefined

/-- The expression `a || b`. -/
def jsOr (a b : JsVal) : JsVal := if truthy a then a else b

mutual
/-- Whether React accepts the value as a child, as in `<p>{error}</p>`: text
and numbers are shown, booleans, `null` and `undefined` show nothing, an array
is rendered item by item, and a plain object makes the render throw ("Objects
are not valid as a React child"). -/
def renderable : JsVal → Bool
  | .obj _ => false
  | .arr items => renderableAll items
  | _ => true
/-- Whether React accepts every item of an array of children. -/
def renderableAll : List JsVal → Bool
  | [] => true
  | v :: vs => renderable v && renderableAll vs
end

/-! ## Component state -/

/-- The values of `step`: intro | capture | processing | result. -/
inductive Step where
  | intro
  | capture
  | processing
  | result
  deriving DecidableEq, Repr

/-- The component state of `App`, its refs, and the part of the browser the
component talks to. -/
structure App where
  /-- The state variable `step`. -/
  step : Step
  /-- The state variable `error` (`null` or whatever `setError` received). -/
  error : JsVal
  /-- The state variable `successMsg`. -/
  successMsg : Option String
  /-- The state variable `snapshotDataUrl`. -/
  snapshotDataUrl : Option String
  /-- The ref `streamRef.current`: the index in `streams` of the held stream. -/
  streamRef : Option Nat
  /-- The `srcObject` of the mounted video element, when there is one. -/
  videoSrc : Option Nat
  /-- Every stream `getUserMedia` has handed out; `true` while its tracks are live. -/
  streams : List Bool
  /-- Calls of `getUserMedia` that have not settled yet. -/
  pendingCam : Nat
  /-- Calls of `video.play()` awaited by `startCamera` that have not settled yet. -/
  pendingPlay : Nat
  /-- Calls of `sendToBackend` that are past `setStep("processing")` and not settled. -/
  inflight : Nat
  /-- Every URL passed to `fetch`, oldest first. -/
  fetchLog : List String
  /-- Whether a render has thrown.  The component has no error boundary, so
  React then unmounts the whole tree: nothing is displayed any more, no button
  exists and no effect runs; the state variables above only record what the
  last render read and what the setters were handed since. -/
  crashed : Bool

/-- The constant `BACKEND_URL`. -/
def BACKEND_URL : String := "http://127.0.0.1:8000/api/biometrics/enroll"

/-- The state after the first render: `useState("intro")`, `useState(null)` three
times, `useRef(null)`; the mount effect calls `stopCamera`, which does nothing. -/
def init : App :=
  { step := .intro, error := .null, successMsg := none, snapshotDataUrl := none,
    streamRef := none, videoSrc := none, streams := [], pendingCam := 0,
    pendingPlay := 0, inflight := 0, fetchLog := [], crashed := false }

/-- Whether `videoRef.current` is set: the video element is rendered exactly
when `step === "capture"` and `!snapshotDataUrl` (lines 150-159), and React
resets the ref to `null` when the element is unmounted, also when the whole
tree is. -/
def videoMounted (a : App) : Bool :=
  !a.crashed && decide (a.step = .capture) && !truthyStr a.snapshotDataUrl

/-- Whether rendering the state throws.  The error message is a child of the
tree in stage capture when it is truthy (`error && <div>...</div>`, line 170)
and in stage result when no success message is set (`<p>...</p>`, line 206);
every other child is a string. -/
def renderThrows (a : App) : Bool :=
  (decide (a.step = .capture) && truthy a.error && !renderable a.error) ||
  (decide (a.step = .result) && !truthyStr a.successMsg && !renderable a.error)

/-- The stage on display: none once the tree is unmounted. -/
def stage (a : App) : Option Step := if a.crashed then none else some a.step

/-- Whether `canvasRef.current` is set: the canvas is rendered unconditionally
(line 216). -/
def canvasMounted (_a : App) : Bool := true

/-! ## Camera -/

/-- The synchronous part of `startCamera` (lines 38-44): `setError(null)` and
the call of `getUserMedia`. -/
def startCamera (a : App) : App :=
  { a with error := .null, pendingCam := a.pendingCam + 1 }

/-- The continuation of `startCamera` when `getUserMedia` resolves (lines
45-49): the fresh stream is stored in `streamRef`, and attached and played
when a video element is mounted. -/
def cameraGranted (a : App) : App :=
  let id := a.streams.length
  let b := { a with streams := a.streams ++ [true], streamRef := some id,
                    pendingCam := a.pendingCam - 1 }
  if videoMounted b then { b with videoSrc := some id, pendingPlay := b.pendingPlay + 1 }
  else b

/-- The `catch` of `startCamera` when `getUserMedia` rejects (line 51). -/
def cameraDenied (a : App) : App :=
  { a with error := .str "No se pudo acceder a la cámara. Verifica permisos.",
           pendingCam := a.pendingCam - 1 }

/-- The awaited `video.play()` of `startCamera` resolves (line 48). -/
def playResolved (a : App) : App :=
  { a with pendingPlay := a.pendingPlay - 1 }

/-- The awaited `video.play()` of `startCamera` rejects: the same `catch` (line 51). -/
def playRejected (a : App) : App :=
  { a with error := .str "No se pudo acceder a la cámara. Verifica permisos.",
           pendingPlay := a.pendingPlay - 1 }

/-- The function `stopCamera` (lines 55-60): stops the tracks of the held stream
and forgets it. -/
def stopCamera (a : App) : App :=
  match a.streamRef with
  | some id => { a with streams := a.streams.set id false, streamRef := none }
  | none => a

/-- The effect on `[step]` (lines 62-65). -/
def stepEffect (a : App) : App :=
  if a.step = .capture then startCamera a else stopCamera a

/-- The effect on `[step, snapshotDataUrl]` (lines 121-131): re-attach the held
stream to the video element. -/
def attachEffect (a : App) : App :=
  if decide (a.step = .capture) && !truthyStr a.snapshotDataUrl && videoMounted a
      && a.streamRef.isSome then
    { a with videoSrc := a.streamRef }
  else a

/-- One render and commit, from the state `old` the handler started in to the
state `new` it produced.  On a tree that is already unmounted nothing is
rendered.  When the render of `new` throws, nothing is committed: the tree is
unmounted and no effect runs.  Otherwise a video element that is mounted or
unmounted starts without a `srcObject`, then the effects whose dependencies
changed run in the order they are declared. -/
def commit (old new : App) : App :=
  if old.crashed then new
  else if renderThrows new then { new with crashed := true, videoSrc := none }
  else
    let r := if videoMounted old = videoMounted new then new else { new with videoSrc := none }
    let e1 := if old.step = new.step then r else stepEffect r
    if old.step = new.step ∧ old.snapshotDataUrl = new.snapshotDataUrl then e1
    else attachEffect e1

/-! ## Handlers -/

/-- The `onClick` of "Iniciar" (line 145). -/
def start (a : App) : App := commit a { a with step := .capture }

/-- The function `takeSnapshot` (lines 67-79); `dataUrl` is what
`canvas.toDataURL("image/jpeg")` returns. -/
def takeSnapshot (dataUrl : String) (a : App) : App :=
  if !videoMounted a || !canvasMounted a then a
  else commit a { a with snapshotDataUrl := some dataUrl }

/-- The function `retake` (lines 104-119). -/
def retake (a : App) : App :=
  let b := { a with snapshotDataUrl := none, error := .null }
  if videoMounted a && a.streamRef.isSome then
    commit a { b with videoSrc := a.streamRef }
  else
    commit a (startCamera b)

/-- The `onClick` of "Finalizar" (line 198). -/
def finalize (a : App) : App := commit a { a with step := .intro }

/-- The `onClick` of "Intentar de nuevo" (line 207). -/
def retry (a : App) : App := commit a { a with step := .capture }

/-! ## Submission -/

/-- How one call of `sendToBackend` can go after `setStep("processing")`. -/
inductive Outcome where
  /-- The call `fetch(snapshotDataUrl)` or `.blob()` rejects (line 85). -/
  | blobFailed
  /-- The call `fetch(BACKEND_URL, ...)` rejects (line 89). -/
  | fetchRejected
  /-- The backend answers with `status`; `body` is what `res.json()` resolves
  to, `none` when it rejects. -/
  | response (status : Nat) (body : Option JsVal)

/-- The flag `res.ok` of the Fetch API: the status is in 200..299. -/
def resOk (status : Nat) : Bool := decide (200 ≤ status) && decide (status ≤ 299)

/-- What the `try` block decides before `setStep("result")`. -/
inductive Verdict where
  | success
  | failure (msg : JsVal)

/-- Lines 92-96 on a response: `if (res.ok && json.ok) ... else
setError(json.message || "Error al procesar")`; a TypeError of a property read
escapes as an exception. -/
def interpret (status : Nat) (json : JsVal) : Except Unit Verdict := do
  let c ← if resOk status then (do let f ← getProp json "ok"; pure (truthy f)) else pure false
  if c then pure .success
  else do
    let m ← getProp json "message"
    pure (.failure (jsOr m (.str "Error al procesar")))

/-- The `try` block of `sendToBackend` (lines 85-96); the `catch` on
`res.json()` turns a body that does not parse into the empty object. -/
def tryBlock : Outcome → Except Unit Verdict
  | .blobFailed => .error ()
  | .fetchRejected => .error ()
  | .response status body => interpret status (body.getD (.obj []))

/-- The synchronous part of `sendToBackend` (lines 82-85). -/
def sendToBackend (a : App) : App :=
  if !truthyStr a.snapshotDataUrl then
    commit a { a with error := .str "Primero toma una foto." }
  else
    commit a { a with step := .processing, inflight := a.inflight + 1,
                      fetchLog := a.fetchLog ++ [a.snapshotDataUrl.getD ""] }

/-- The state updates the settled `try`/`catch` of `sendToBackend` performs
(lines 92-101). -/
def applyVerdict (a : App) : Except Unit Verdict → App
  | .ok .success => { a with successMsg := some "Registro exitoso", step := .result }
  | .ok (.failure m) => { a with error := m, step := .result }
  | .error _ => { a with error := .str "Falló el envío al backend.", step := .result }

/-- The rest of `sendToBackend` once its awaited calls have settled with
outcome `o`. -/
def settle (o : Outcome) (a : App) : App :=
  let posted : List String :=
    match o with
    | .blobFailed => []
    | _ => [BACKEND_URL]
  commit a (applyVerdict { a with inflight := a.inflight - 1, fetchLog := a.fetchLog ++ posted }
    (tryBlock o))

/-! ## Runs of the wizard -/

/-- What can happen to the mounted component: a click on a rendered button or
the settling of a pending asynchronous call. -/
inductive Event where
  | start
  | takeSnapshot (dataUrl : String)
  | retake
  | sendToBackend
  | finalize
  | retry
  | cameraGranted
  | cameraDenied
  | playResolved
  | playRejected
  | settle (o : Outcome)

/-- Whether the event can happen in state `a`: the tree is mounted and the
button is rendered (lines 138-213), or the asynchronous call is pending. -/
def enabled (a : App) : Event → Bool
  | .start => !a.crashed && decide (a.step = .intro)
  | .takeSnapshot _ => !a.crashed && decide (a.step = .capture) && !truthyStr a.snapshotDataUrl
  | .retake => !a.crashed && decide (a.step = .capture) && truthyStr a.snapshotDataUrl
  | .sendToBackend => !a.crashed && decide (a.step = .capture) && truthyStr a.snapshotDataUrl
  | .finalize => !a.crashed && decide (a.step = .result) && truthyStr a.successMsg
  | .retry => !a.crashed && decide (a.step = .result) && !truthyStr a.successMsg
  | .cameraGranted => decide (0 < a.pendingCam)
  | .cameraDenied => decide (0 < a.pendingCam)
  | .playResolved => decide (0 < a.pendingPlay)
  | .playRejected => decide (0 < a.pendingPlay)
  | .settle _ => decide (0 < a.inflight)

/-- The state after the event. -/
def fire (a : App) : Event → App
  | .start => start a
  | .takeSnapshot d => takeSnapshot d a
  | .retake => retake a
  | .sendToBackend => sendToBackend a
  | .finalize => finalize a
  | .retry => retry a
  | .cameraGranted => cameraGranted a
  | .cameraDenied => cameraDenied a
  | .playResolved => playResolved a
  | .playRejected => playRejected a
  | .settle o => settle o a

/-- Runs the events in order; `none` when one of them cannot happen. -/
def run (a : App) : List Event → Option App
  | [] => some a
  | e :: es => if enabled a e then run (fire a e) es else none

/-- The states the wizard can be in. -/
def Reachable (a : App) : Prop := ∃ es, run init es = some a

/-- Whether some stream handed out by `getUserMedia` still has live tracks. -/
def cameraActive (a : App) : Bool := a.streams.any id

/-- The number of streams whose tracks are live. -/
def liveSessions (a : App) : Nat := a.streams.count true

/-- The total property read used to state results: `undefined` where `getProp`
throws. -/
def field (v : JsVal) (k : String) : JsVal :=
  match v with
  | .obj fields => (lookupLast k fields).getD .undefined
  | _ => .undefined

/-- Whether the outcome is an acknowledged enrollment: an answer with a
successful status whose body parsed and carries a truthy `ok`. -/
def acknowledged : Outcome → Bool
  | .response status (some json) => resOk status && truthy (field json "ok")
  | _ => false

/-! ## States and answers used as examples -/

/-- The wizard after "Iniciar", a granted camera and "Tomar foto". -/
def afterCapture : App :=
  takeSnapshot "data:image/jpeg;base64,AA" (cameraGranted (start init))

/-- The wizard after "Iniciar", a denied camera and "Tomar foto" (an empty
canvas exports `data:,`). -/
def afterDeniedCapture : App :=
  takeSnapshot "data:," (cameraDenied (start init))

/-- The answer 200 with body `ok: true`. -/
def okResponse : Outcome := .response 200 (some (.obj [("ok", .bool true)]))

/-- The answer 200 with body `ok: false, message: ""`. -/
def emptyMessageResponse : Outcome :=
  .response 200 (some (.obj [("ok", .bool false), ("message", .str "")]))

/-- The wizard after a successful enrollment, "Finalizar", "Iniciar", "Enviar"
and a rejected backend fetch. -/
def secondAttemptFailed : App :=
  settle .fetchRejected (sendToBackend (start (finalize (settle okResponse
    (sendToBackend (takeSnapshot "data:image/jpeg;base64,AA"
      (playResolved (cameraGranted (start init)))))))))

/-- The answer 200 with body `ok: false, message: (code: 1)`, an object where
text is expected. -/
def objectMessageResponse : Outcome :=
  .response 200 (some (.obj [("ok", .bool false), ("message", .obj [("code", .num 1)])]))

/-- The wizard after "Iniciar", "Tomar foto" on the still empty canvas and
"Enviar", with the camera denied while the submission is processing. -/
def deniedWhileProcessing : App :=
  cameraDenied (sendToBackend (takeSnapshot "data:," (start init)))

/-- The wizard after "Iniciar", "Tomar foto" and "Enviar" with the camera
granted only then. -/
def lateCamera : App :=
  cameraGranted (sendToBackend (takeSnapshot "data:," (start init)))

/-! # Theorems -/

/-! ## What a commit leaves alone -/

theorem stepEffect_step (a : App) : (stepEffect a).step = a.step := by
  unfold stepEffect startCamera stopCamera
  split
  · rfl
  · split <;> rfl

theorem stepEffect_successMsg (a : App) : (stepEffect a).successMsg = a.successMsg := by
  unfold stepEffect startCamera stopCamera
  split
  · rfl
  · split <;> rfl

theorem stepEffect_snapshotDataUrl (a : App) :
    (stepEffect a).snapshotDataUrl = a.snapshotDataUrl := by
  unfold stepEffect startCamera stopCamera
  split
  · rfl
  · split <;> rfl

theorem stepEffect_error (a : App) (h : a.step ≠ .capture) : (stepEffect a).error = a.error := by
  unfold stepEffect stopCamera
  rw [if_neg h]
  split <;> rfl

theorem commit_step (old new : App) : (commit old new).step = new.step := by
  unfold commit attachEffect
  simp only []
  split_ifs <;> simp [stepEffect_step]

theorem commit_successMsg (old new : App) : (commit old new).successMsg = new.successMsg := by
  unfold commit attachEffect
  simp only []
  split_ifs <;> simp [stepEffect_successMsg]

theorem commit_snapshotDataUrl (old new : App) :
    (commit old new).snapshotDataUrl = new.snapshotDataUrl := by
  unfold commit attachEffect
  simp only []
  split_ifs <;> simp [stepEffect_snapshotDataUrl]

theorem commit_error (old new : App) (h : new.step ≠ .capture) :
    (commit old new).error = new.error := by
  unfold commit attachEffect
  simp only []
  split_ifs <;> simp [stepEffect_error, h]

theorem stepEffect_inflight (a : App) : (stepEffect a).inflight = a.inflight := by
  unfold stepEffect startCamera stopCamera
  split
  · rfl
  · split <;> rfl

theorem stepEffect_fetchLog (a : App) : (stepEffect a).fetchLog = a.fetchLog := by
  unfold stepEffect startCamera stopCamera
  split
  · rfl
  · split <;> rfl

theorem commit_inflight (old new : App) : (commit old new).inflight = new.inflight := by
  unfold commit attachEffect
  simp only []
  split_ifs <;> simp [stepEffect_inflight]

theorem commit_fetchLog (old new : App) : (commit old new).fetchLog = new.fetchLog := by
  unfold commit attachEffect
  simp only []
  split_ifs <;> simp [stepEffect_fetchLog]

theorem renderThrows_of_renderable (b : App) (hr : renderable b.error = true) :
    renderThrows b = false := by
  simp [renderThrows, hr]

theorem commit_same (a b : App) (hs : a.step = b.step)
    (hu : a.snapshotDataUrl = b.snapshotDataUrl) (hc : a.crashed = b.crashed)
    (hr : renderable b.error = true) : commit a b = b := by
  have hv : videoMounted a = videoMounted b := by simp [videoMounted, hs, hu, hc]
  simp [commit, hs, hu, hv, renderThrows_of_renderable b hr]

theorem stepEffect_crashed (a : App) : (stepEffect a).crashed = a.crashed := by
  unfold stepEffect startCamera stopCamera
  split
  · rfl
  · split <;> rfl

theorem commit_crashed (old new : App) (hr : renderThrows new = false) :
    (commit old new).crashed = new.crashed := by
  unfold commit attachEffect
  simp only [hr]
  split_ifs <;> simp_all [stepEffect_crashed]

theorem truthy_jsOr (m : JsVal) : truthy (jsOr m (.str "Error al procesar")) = true := by
  unfold jsOr
  split
  · assumption
  · decide

theorem applyVerdict_step (a : App) (v : Except Unit Verdict) :
    (applyVerdict a v).step = .result := by
  unfold applyVerdict
  split <;> rfl

theorem settle_step (o : Outcome) (b : App) : (settle o b).step = .result := by
  unfold settle
  rw [commit_step, applyVerdict_step]

theorem settle_successMsg (o : Outcome) (b : App) :
    (settle o b).successMsg =
      match tryBlock o with
      | .ok .success => some "Registro exitoso"
      | _ => b.successMsg := by
  unfold settle
  rw [commit_successMsg]
  unfold applyVerdict
  split <;> simp_all

theorem settle_error (o : Outcome) (b : App) :
    (settle o b).error =
      match tryBlock o with
      | .ok .success => b.error
      | .ok (.failure m) => m
      | .error _ => .str "Falló el envío al backend." := by
  unfold settle
  rw [commit_error _ _ (by rw [applyVerdict_step]; decide)]
  unfold applyVerdict
  split <;> simp_all

theorem sendToBackend_held (a : App) (h : truthyStr a.snapshotDataUrl = true) :
    sendToBackend a =
      commit a { a with step := .processing, inflight := a.inflight + 1,
                        fetchLog := a.fetchLog ++ [a.snapshotDataUrl.getD ""] } := by
  unfold sendToBackend
  simp [h]

theorem tryBlock_success_iff (o : Outcome) :
    tryBlock o = .ok .success ↔ acknowledged o = true := by
  cases o with
  | blobFailed => simp [tryBlock, acknowledged]
  | fetchRejected => simp [tryBlock, acknowledged]
  | response status body =>
    cases body with
    | none =>
      simp [tryBlock, acknowledged, interpret, getProp, lookupLast, truthy, bind, Except.bind, pure, Except.pure]
    | some json =>
      cases json <;> cases hr : resOk status <;>
        simp [tryBlock, acknowledged, interpret, getProp, field, truthy, bind, Except.bind, pure, Except.pure, hr]


theorem tryBlock_failure_truthy (o : Outcome) (m : JsVal)
    (h : tryBlock o = .ok (.failure m)) : truthy m = true := by
  cases o with
  | blobFailed => simp [tryBlock] at h
  | fetchRejected => simp [tryBlock] at h
  | response status body =>
    have key : ∀ json : JsVal, interpret status json = .ok (.failure m) → truthy m = true := by
      intro json hj
      unfold interpret at hj
      cases hm : getProp json "message" with
      | error e =>
        cases hr : resOk status <;> cases hk : getProp json "ok" <;>
          simp [hm, hr, hk, bind, Except.bind, pure, Except.pure] at hj
        split at hj <;> simp at hj
      | ok v =>
        cases hr : resOk status <;> cases hk : getProp json "ok" <;>
          simp [hm, hr, hk, bind, Except.bind, pure, Except.pure] at hj
        · rw [← hj]; exact truthy_jsOr v
        · rw [← hj]; exact truthy_jsOr v
        · split at hj <;> simp at hj
          rw [← hj]; exact truthy_jsOr v
    exact key _ h

theorem renderThrows_applyVerdict (a : App) (v : Except Unit Verdict)
    (hr : ∀ m, v = .ok (.failure m) → renderable m = true) :
    renderThrows (applyVerdict a v) = false := by
  unfold applyVerdict
  split
  · simp [renderThrows, truthyStr]
  · rename_i m
    simp [renderThrows, hr m rfl]
  · simp [renderThrows, renderable]

theorem applyVerdict_crashed (a : App) (v : Except Unit Verdict) :
    (applyVerdict a v).crashed = a.crashed := by
  unfold applyVerdict
  split <;> rfl

theorem settle_crashed (o : Outcome) (b : App)
    (hr : ∀ m, tryBlock o = .ok (.failure m) → renderable m = true) :
    (settle o b).crashed = b.crashed := by
  unfold settle
  rw [commit_crashed _ _ (renderThrows_applyVerdict _ _ hr), applyVerdict_crashed]

/-! ## C1 -/

/-- C1: in every state without a Snapshot, `sendToBackend` changes nothing but
the error message, which becomes "Primero toma una foto."; the stage is
unchanged (it stays at capture), no fetch is issued and no submission is in
flight afterwards that was not before. -/
theorem sendToBackend_without_snapshot (a : App) (h : a.snapshotDataUrl = none) :
    sendToBackend a = { a with error := .str "Primero toma una foto." } ∧
    (sendToBackend a).step = a.step ∧
    (a.step = .capture → (sendToBackend a).step = .capture) ∧
    (sendToBackend a).error = .str "Primero toma una foto." ∧
    (sendToBackend a).fetchLog = a.fetchLog ∧
    (sendToBackend a).inflight = a.inflight := by
  have ht : truthyStr a.snapshotDataUrl = false := by rw [h]; rfl
  have e : sendToBackend a = { a with error := .str "Primero toma una foto." } := by
    unfold sendToBackend
    simp only [ht, Bool.not_false, if_true]
    exact commit_same _ _ rfl rfl rfl rfl
  rw [e]
  exact ⟨rfl, rfl, fun hc => hc, rfl, rfl, rfl⟩

/-- Right after "Iniciar" no Snapshot is held: "Enviar" only sets the validation text. -/
theorem sendToBackend_without_snapshot_witness :
    (start init).snapshotDataUrl = none ∧
    (sendToBackend (start init)).step = .capture ∧
    (sendToBackend (start init)).error = .str "Primero toma una foto." ∧
    (sendToBackend (start init)).fetchLog = [] :=
  ⟨rfl, (sendToBackend_without_snapshot (start init) rfl).2.2.1 rfl,
    (sendToBackend_without_snapshot (start init) rfl).2.2.2.1,
    (sendToBackend_without_snapshot (start init) rfl).2.2.2.2.1⟩

/-! ## C2 -/

/-- C2, as stated, fails: answered with status 200 and the body `ok: 1`, whose
flag is not `true`, the submission sets the success message. -/
theorem truthy_flag_sets_success :
    ¬ ((settle (.response 200 (some (.obj [("ok", .num 1)])))
          (sendToBackend afterCapture)).successMsg = some "Registro exitoso" ↔
        (resOk 200 = true ∧ field (.obj [("ok", .num 1)]) "ok" = .bool true)) := by
  intro hiff
  have h := hiff.mp rfl
  have h2 : field (.obj [("ok", .num 1)]) "ok" = .num 1 := rfl
  rw [h2] at h
  exact JsVal.noConfusion h.2

/-- C2, amended: a submission made with a Snapshot held sets the success
message exactly when the answer has a successful status and its body parsed to
a value whose `ok` is truthy; then the error message is left alone.  In every
other case (flag falsy or absent, body not JSON, status not 2xx, a thrown
error) it sets a truthy error message and leaves the success message as it
was, so with no success message before, the success message is set if and
only if the outcome is acknowledged. -/
theorem submission_success_iff_acknowledged (a : App) (o : Outcome)
    (h : truthyStr a.snapshotDataUrl = true) :
    (settle o (sendToBackend a)).successMsg =
      (if acknowledged o then some "Registro exitoso" else a.successMsg) ∧
    (if acknowledged o then (settle o (sendToBackend a)).error = a.error
      else truthy (settle o (sendToBackend a)).error = true) ∧
    (a.successMsg = none →
      ((settle o (sendToBackend a)).successMsg = some "Registro exitoso" ↔
        acknowledged o = true)) := by
  have hs : (sendToBackend a).successMsg = a.successMsg := by
    rw [sendToBackend_held a h, commit_successMsg]
  have he : (sendToBackend a).error = a.error := by
    rw [sendToBackend_held a h, commit_error _ _ (by simp)]
  have h1 : (settle o (sendToBackend a)).successMsg =
      (if acknowledged o then some "Registro exitoso" else a.successMsg) := by
    rw [settle_successMsg, hs]
    cases hT : tryBlock o with
    | error e =>
      have : acknowledged o = false := by
        cases hk : acknowledged o
        · rfl
        · rw [(tryBlock_success_iff o).mpr hk] at hT; cases hT
      simp [this]
    | ok w =>
      cases w with
      | success => simp [(tryBlock_success_iff o).mp hT]
      | failure m =>
        have : acknowledged o = false := by
          cases hk : acknowledged o
          · rfl
          · rw [(tryBlock_success_iff o).mpr hk] at hT; cases hT
        simp [this]
  refine ⟨h1, ?_, ?_⟩
  · cases hk : acknowledged o
    · simp only [Bool.false_eq_true, if_false]
      rw [settle_error]
      cases hT : tryBlock o with
      | error e => show truthy (JsVal.str "Falló el envío al backend.") = true; decide
      | ok w =>
        cases w with
        | success => rw [(tryBlock_success_iff o).mp hT] at hk; cases hk
        | failure m => exact tryBlock_failure_truthy o m hT
    · simp only [if_true]
      rw [settle_error, (tryBlock_success_iff o).mpr hk, he]
  · intro hn
    rw [h1, hn]
    cases acknowledged o <;> simp

/-- A false flag leaves the success message unset; a true flag sets it. -/
theorem submission_success_iff_acknowledged_witness :
    truthyStr afterCapture.snapshotDataUrl = true ∧
    (settle (.response 200 (some (.obj [("ok", .bool false)])))
      (sendToBackend afterCapture)).successMsg = none ∧
    (settle okResponse (sendToBackend afterCapture)).successMsg = some "Registro exitoso" :=
  ⟨rfl, (submission_success_iff_acknowledged afterCapture
      (.response 200 (some (.obj [("ok", .bool false)]))) rfl).1,
    (submission_success_iff_acknowledged afterCapture okResponse rfl).1⟩

/-! ## C4 -/

/-- C4, as stated, fails: after "Iniciar", a denied camera, "Tomar foto" and
"Enviar", the answer 200 with `ok: true` leaves the wizard in stage result with
the success message set and the camera error message still there. -/
theorem success_keeps_earlier_error :
    (run init [.start, .cameraDenied, .takeSnapshot "data:,", .sendToBackend,
        .settle okResponse]).map (fun a => (a.step, a.successMsg, truthy a.error)) =
      some (.result, some "Registro exitoso", true) ∧
    (settle okResponse (sendToBackend afterDeniedCapture)).error =
      .str "No se pudo acceder a la cámara. Verifica permisos." ∧
    (settle okResponse (sendToBackend afterDeniedCapture)).error ≠ .null :=
  ⟨rfl, rfl, fun h => JsVal.noConfusion ((rfl : _ = JsVal.str _).symm.trans h)⟩

/-- C4, amended: with a Snapshot held, `sendToBackend` sets the stage to
processing and leaves the error message untouched; when the call is then
answered with status 200 and body `ok: true`, in whatever state `b` the wizard
is at that moment, the stage becomes result and the success message is set,
the tree stays mounted if it was, and the error message is exactly what it was
immediately before the answer arrived: the submission neither clears nor sets
it. -/
theorem success_sets_result (a b : App) (h : truthyStr a.snapshotDataUrl = true) :
    (sendToBackend a).step = .processing ∧
    (sendToBackend a).error = a.error ∧
    (settle okResponse b).step = .result ∧
    (settle okResponse b).successMsg = some "Registro exitoso" ∧
    (settle okResponse b).error = b.error ∧
    (settle okResponse b).crashed = b.crashed := by
  have hT : tryBlock okResponse = .ok .success := rfl
  refine ⟨?_, ?_, settle_step _ _, ?_, ?_, ?_⟩
  · rw [sendToBackend_held a h, commit_step]
  · rw [sendToBackend_held a h, commit_error _ _ (by simp)]
  · rw [settle_successMsg, hT]
  · rw [settle_error, hT]
  · exact settle_crashed _ _ (fun m hm => by rw [hT] at hm; cases hm)

/-- No error is set when "Enviar" is pressed on a frame taken before the camera
answered; the camera is denied while the submission is processing, and the
success that follows leaves that error message in place. -/
theorem success_sets_result_witness :
    truthyStr (takeSnapshot "data:," (start init)).snapshotDataUrl = true ∧
    (takeSnapshot "data:," (start init)).error = .null ∧
    (sendToBackend (takeSnapshot "data:," (start init))).error = .null ∧
    (settle okResponse deniedWhileProcessing).step = .result ∧
    (settle okResponse deniedWhileProcessing).error =
      .str "No se pudo acceder a la cámara. Verifica permisos." :=
  ⟨rfl, rfl,
    (success_sets_result (takeSnapshot "data:," (start init)) deniedWhileProcessing rfl).2.1,
    (success_sets_result (takeSnapshot "data:," (start init)) deniedWhileProcessing rfl).2.2.1,
    (success_sets_result (takeSnapshot "data:," (start init))
      deniedWhileProcessing rfl).2.2.2.2.1⟩

/-! ## C5 -/

/-- C5, as stated, fails: a body whose flag is false and whose message field is
present but empty yields the generic text, not the message. -/
theorem empty_message_replaced :
    lookupLast "message" [("ok", .bool false), ("message", .str "")] = some (.str "") ∧
    truthy (field (.obj [("ok", .bool false), ("message", .str "")]) "ok") = false ∧
    (settle emptyMessageResponse (sendToBackend afterCapture)).error =
      .str "Error al procesar" ∧
    (settle emptyMessageResponse (sendToBackend afterCapture)).error ≠
      field (.obj [("ok", .bool false), ("message", .str "")]) "message" := by
  refine ⟨rfl, rfl, rfl, ?_⟩
  intro h
  have h1 : (settle emptyMessageResponse (sendToBackend afterCapture)).error =
      .str "Error al procesar" := rfl
  have h2 : field (.obj [("ok", .bool false), ("message", .str "")]) "message" = .str "" := rfl
  rw [h1, h2] at h
  injection h with h3
  exact absurd h3 (by decide)

/-- C5, amended: when a submission settles on a mounted wizard `b`, is not
acknowledged, and its body parsed to a JSON object whose message field is a
value React can render (anything but an object or an array holding one), the
wizard shows stage result and the error message is the message field itself
when that field is truthy (for a string: present and not empty) and "Error al
procesar" when it is absent or falsy; when the call throws (the backend fetch
rejects, or the Snapshot cannot be converted) the wizard shows stage result and
the error message is "Falló el envío al backend.". -/
theorem failed_submission_error_text (b : App) (status : Nat)
    (fields : List (String × JsVal)) (hb : b.crashed = false)
    (hfail : acknowledged (.response status (some (.obj fields))) = false)
    (hr : renderable (field (.obj fields) "message") = true) :
    (settle (.response status (some (.obj fields))) b).error =
      (if truthy (field (.obj fields) "message") then field (.obj fields) "message"
        else .str "Error al procesar") ∧
    stage (settle (.response status (some (.obj fields))) b) = some .result ∧
    (settle .fetchRejected b).error = .str "Falló el envío al backend." ∧
    stage (settle .fetchRejected b) = some .result ∧
    (settle .blobFailed b).error = .str "Falló el envío al backend." ∧
    stage (settle .blobFailed b) = some .result := by
  have hT : tryBlock (.response status (some (.obj fields))) =
      .ok (.failure (jsOr (field (.obj fields) "message") (.str "Error al procesar"))) := by
    simp only [acknowledged, field] at hfail
    cases hk : resOk status
    · simp [tryBlock, interpret, getProp, field, hk, bind, Except.bind, pure, Except.pure]
    · rw [hk] at hfail
      simp only [Bool.true_and] at hfail
      simp [tryBlock, interpret, getProp, field, hk, hfail, bind, Except.bind, pure,
        Except.pure]
  have hj : renderable (jsOr (field (.obj fields) "message") (.str "Error al procesar"))
      = true := by
    unfold jsOr
    split
    · exact hr
    · rfl
  have hstage : ∀ o : Outcome, (∀ m, tryBlock o = .ok (.failure m) → renderable m = true) →
      stage (settle o b) = some .result := by
    intro o ho
    unfold stage
    rw [settle_crashed o b ho, hb, settle_step]
    rfl
  refine ⟨?_, ?_, ?_, ?_, ?_, ?_⟩
  · rw [settle_error, hT]
    rfl
  · refine hstage _ (fun m hm => ?_)
    rw [hT] at hm
    injection hm with hm
    injection hm with hm
    rw [← hm]
    exact hj
  · rw [settle_error]; rfl
  · exact hstage _ (fun m hm => by simp [tryBlock] at hm)
  · rw [settle_error]; rfl
  · exact hstage _ (fun m hm => by simp [tryBlock] at hm)

/-- The body `ok: false, message: "duplicate face"` with status 200 yields that message. -/
theorem failed_submission_error_text_witness :
    (sendToBackend afterCapture).crashed = false ∧
    acknowledged (.response 200 (some (.obj [("ok", .bool false),
      ("message", .str "duplicate face")]))) = false ∧
    renderable (field (.obj [("ok", .bool false), ("message", .str "duplicate face")])
      "message") = true ∧
    (settle (.response 200 (some (.obj [("ok", .bool false),
      ("message", .str "duplicate face")]))) (sendToBackend afterCapture)).error =
      .str "duplicate face" ∧
    stage (settle (.response 200 (some (.obj [("ok", .bool false),
      ("message", .str "duplicate face")]))) (sendToBackend afterCapture)) = some .result :=
  ⟨rfl, rfl, rfl,
    (failed_submission_error_text (sendToBackend afterCapture) 200
      [("ok", .bool false), ("message", .str "duplicate face")] rfl rfl rfl).1,
    (failed_submission_error_text (sendToBackend afterCapture) 200
      [("ok", .bool false), ("message", .str "duplicate face")] rfl rfl rfl).2.1⟩

/-! ## C8 -/

/-- C8, as stated, fails: after "Iniciar" and a denied camera there is no
camera session, yet "Tomar foto" stores what the canvas exports as the
Snapshot. -/
theorem takeSnapshot_without_session_stores :
    run init [.start, .cameraDenied] = some (cameraDenied (start init)) ∧
    (cameraDenied (start init)).streamRef = none ∧
    (cameraDenied (start init)).snapshotDataUrl = none ∧
    (takeSnapshot "data:," (cameraDenied (start init))).snapshotDataUrl = some "data:," :=
  ⟨rfl, rfl, rfl, rfl⟩

/-- C8, amended: `takeSnapshot` never changes the stage, and in every state in
which no video element is mounted (the stage is not capture, or a Snapshot is
on display) it changes nothing at all, so the Snapshot stays as it was. -/
theorem takeSnapshot_without_video (dataUrl : String) (a : App) :
    (takeSnapshot dataUrl a).step = a.step ∧
    (videoMounted a = false → takeSnapshot dataUrl a = a) := by
  refine ⟨?_, ?_⟩
  · unfold takeSnapshot
    split
    · rfl
    · rw [commit_step]
  · intro hv
    unfold takeSnapshot
    simp [hv]

/-- With a Snapshot on display the video element is gone and `takeSnapshot` does nothing. -/
theorem takeSnapshot_without_video_witness :
    videoMounted afterCapture = false ∧
    takeSnapshot "data:," afterCapture = afterCapture :=
  ⟨rfl, (takeSnapshot_without_video "data:," afterCapture).2 rfl⟩

/-! ## C3, C6, C7, C9, C10: the code at the failing inputs -/

/-- C7: "Finalizar" after a successful submission leads to stage intro with
no camera session held, but with the Snapshot and the success message still
set. -/
theorem finalize_keeps_snapshot_and_success :
    (run init [.start, .cameraGranted, .playResolved,
        .takeSnapshot "data:image/jpeg;base64,AA", .sendToBackend, .settle okResponse,
        .finalize]).map
      (fun a => (a.step, a.snapshotDataUrl, a.successMsg, a.streamRef, cameraActive a)) =
      some (.intro, some "data:image/jpeg;base64,AA", some "Registro exitoso", none, false) :=
  rfl

/-- C3: after one successful enrollment and "Finalizar", a second submission
that fails ends in stage result with the success message and the error message
both set: a reachable state breaks the exclusion. -/
theorem success_and_error_both_set :
    (run init [.start, .cameraGranted, .playResolved,
        .takeSnapshot "data:image/jpeg;base64,AA", .sendToBackend, .settle okResponse,
        .finalize, .start, .sendToBackend, .settle .fetchRejected]).map
      (fun a => (a.step, a.successMsg, truthy a.error)) =
      some (.result, some "Registro exitoso", true) ∧
    ∃ a, Reachable a ∧ a.successMsg ≠ none ∧ a.error ≠ .null :=
  ⟨rfl, secondAttemptFailed,
    ⟨[.start, .cameraGranted, .playResolved, .takeSnapshot "data:image/jpeg;base64,AA",
      .sendToBackend, .settle okResponse, .finalize, .start, .sendToBackend,
      .settle .fetchRejected], rfl⟩,
    fun h => Option.noConfusion ((rfl : secondAttemptFailed.successMsg = some _).symm.trans h),
    fun h => JsVal.noConfusion ((rfl : secondAttemptFailed.error = .str _).symm.trans h)⟩

/-- C6: when the camera is granted only after "Tomar foto" and "Enviar", the
stream is stored and stays live in stage processing, so a reachable state
outside capture holds an active session; and a stream replaced after "Repetir"
stays live when the stage is left. -/
theorem camera_live_outside_capture :
    (run init [.start, .takeSnapshot "data:,", .sendToBackend, .cameraGranted]).map
      (fun a => (a.step, a.streamRef, cameraActive a)) =
      some (.processing, some 0, true) ∧
    (run init [.start, .cameraGranted, .takeSnapshot "data:image/jpeg;base64,AA", .retake,
        .cameraGranted, .takeSnapshot "data:image/jpeg;base64,AB", .sendToBackend]).map
      (fun a => (a.step, a.streamRef, a.streams, cameraActive a)) =
      some (.processing, none, [true, false], true) ∧
    ∃ a, Reachable a ∧ a.step ≠ .capture ∧ a.streamRef ≠ none ∧ cameraActive a = true :=
  ⟨rfl, rfl, lateCamera,
    ⟨[.start, .takeSnapshot "data:,", .sendToBackend, .cameraGranted], rfl⟩,
    by decide, by decide, rfl⟩

/-- C9: in stage capture with a Snapshot and a camera session held, "Repetir"
clears the Snapshot and the error and calls `getUserMedia` again (the video
element is not mounted while the Snapshot is shown); once that call resolves
two sessions are live. -/
theorem retake_requests_camera_again :
    run init [.start, .cameraGranted, .takeSnapshot "data:image/jpeg;base64,AA"] =
      some afterCapture ∧
    (afterCapture.step, afterCapture.streamRef, afterCapture.pendingCam, videoMounted afterCapture)
      = (.capture, some 0, 0, false) ∧
    ((retake afterCapture).snapshotDataUrl, (retake afterCapture).pendingCam,
      (retake afterCapture).videoSrc) = (none, 1, some 0) ∧
    ((cameraGranted (retake afterCapture)).streamRef,
      liveSessions (cameraGranted (retake afterCapture))) = (some 1, 2) :=
  ⟨rfl, rfl, rfl, rfl⟩
/-- C10: with a Snapshot held "Enviar" shows stage processing at once, but when
the backend answers 200 with a body whose message is an object, the `try`
block hands that object to `setError`, the render of the result stage throws
on it, and the tree is unmounted: no stage is on display and neither
"Intentar de nuevo" nor any other button exists. -/
theorem object_message_unmounts :
    (run init [.start, .cameraGranted, .playResolved,
        .takeSnapshot "data:image/jpeg;base64,AA", .sendToBackend]).map stage =
      some (some .processing) ∧
    (run init [.start, .cameraGranted, .playResolved,
        .takeSnapshot "data:image/jpeg;base64,AA", .sendToBackend,
        .settle objectMessageResponse]).map
      (fun a => (stage a, a.crashed, enabled a .retry, enabled a .finalize,
        enabled a .start, enabled a .sendToBackend)) =
      some (none, true, false, false, false, false) ∧
    tryBlock objectMessageResponse = .ok (.failure (.obj [("code", .num 1)])) ∧
    ∃ a, Reachable a ∧ stage a = none :=
  ⟨rfl, rfl, rfl,
    settle objectMessageResponse (sendToBackend (takeSnapshot "data:image/jpeg;base64,AA"
      (playResolved (cameraGranted (start init))))),
    ⟨[.start, .cameraGranted, .playResolved, .takeSnapshot "data:image/jpeg;base64,AA",
      .sendToBackend, .settle objectMessageResponse], rfl⟩, rfl⟩

end FaceNomad
